import Mathlib

/-!
Shallow embedding of the BallsDex art package (src/art/models.py and
src/art/package/cog.py).

Modelling conventions:
* Players and balls are identified by their primary keys (`Nat`), matching
  Django model-instance equality, which compares primary keys.
* Times are seconds since the epoch as `Nat`.  `timezone.now().replace(hour=0,
  minute=0, second=0, microsecond=0)` is start-of-day arithmetic
  `now / 86400 * 86400` (one reference timezone, as in the deployment).
* The database table of art entries is a `List ArtEntry` plus the
  monotonically assigned next primary key; `acreate` appends a row and bumps
  the key.
* `updated_at` is a framework-managed `auto_now` column touched on every save
  and referenced by no command logic, so it is not modelled.
-/

namespace ArtPackage

/-- Status choices of `ArtStatus` in src/art/models.py. -/
inductive ArtStatus
  | pending
  | approved
  | rejected
deriving Repr, DecidableEq

/-- The `ArtSettings` singleton row (src/art/models.py): master switch,
approval requirement and the per-player daily cap. -/
structure ArtSettings where
  enabled : Bool
  requireApproval : Bool
  maxSubmissionsPerDay : Nat
deriving Repr, DecidableEq

/-- One row of the `ArtEntry` table (src/art/models.py).  `reviewedBy` and
`reviewedAt` are nullable columns; `ball` and `artist` are foreign keys held
as primary keys. -/
structure ArtEntry where
  id : Nat
  ball : Nat
  artist : Nat
  title : String
  description : String
  mediaUrl : String
  status : ArtStatus
  rejectionReason : String
  reviewedBy : Option Nat
  reviewedAt : Option Nat
  enabled : Bool
  createdAt : Nat
deriving Repr, DecidableEq

/-- A Discord attachment as the submit command receives it: the platform hands
the command a validated CDN locator in `url`. -/
structure Attachment where
  url : String
deriving Repr, DecidableEq

/-- The media argument of `art_submit`.  The command signature in
src/art/package/cog.py declares `attachment: discord.Attachment` as a required
parameter, so the only media a submit invocation can carry is a Discord
attachment; `media_url = attachment.url` is the pre-validated locator the
front end supplies. -/
inductive MediaInput
  | attachment (a : Attachment)
deriving Repr, DecidableEq

/-- The URL string the submit handler stores (`media_url = attachment.url`). -/
def MediaInput.url : MediaInput → String
  | .attachment a => a.url

/-- Whether the media argument is a pre-validated attachment locator supplied
by the front end.  Every `MediaInput` is one, because the command accepts only
`discord.Attachment` values. -/
def MediaInput.preValidated : MediaInput → Bool
  | .attachment _ => true

/-- The art-entry table plus the monotone primary-key counter. -/
structure ArtState where
  entries : List ArtEntry
  nextId : Nat
deriving Repr, DecidableEq

/-- Start of the current calendar day:
`timezone.now().replace(hour=0, minute=0, second=0, microsecond=0)`
(src/art/package/cog.py line 105). -/
def todayStart (now : Nat) : Nat := now / 86400 * 86400

/-- The daily-quota count of `art_submit` (cog.py lines 106-108):
`ArtEntry.objects.filter(artist=player, created_at__gte=today_start).acount()`.
It filters on artist and creation time only; status never enters. -/
def quotaCount (player now : Nat) (entries : List ArtEntry) : Nat :=
  (entries.filter fun e => e.artist == player && decide (todayStart now ≤ e.createdAt)).length

/-- Result of a submit invocation.  The handler either reports the disabled
switch, reports the quota with the configured limit, or creates a row; it has
no media-validation failure branch. -/
inductive SubmitOutcome
  | disabled
  | quotaExceeded (limit : Nat)
  | created (entry : ArtEntry)
deriving Repr, DecidableEq

/-- The row `ArtEntry.objects.acreate(...)` inserts (cog.py lines 120-127):
optional title and description default to the empty string, status is decided
by `require_approval`, and every other column takes its model default
(`rejection_reason` blank, `reviewed_by`/`reviewed_at` null, `enabled` true). -/
def mkEntry (cfg : ArtSettings) (id ball artist : Nat)
    (title description : Option String) (url : String) (now : Nat) : ArtEntry :=
  { id := id
    ball := ball
    artist := artist
    title := title.getD ""
    description := description.getD ""
    mediaUrl := url
    status := if cfg.requireApproval then ArtStatus.pending else ArtStatus.approved
    rejectionReason := ""
    reviewedBy := none
    reviewedAt := none
    enabled := true
    createdAt := now }

/-- The `art_submit` handler (cog.py lines 88-149): check the master switch,
count today's submissions of the player, compare against the cap, then insert
the row with `media_url = attachment.url`. -/
def artSubmit (cfg : ArtSettings) (ballId artistId : Nat) (m : MediaInput)
    (title description : Option String) (now : Nat) (s : ArtState) :
    ArtState × SubmitOutcome :=
  if !cfg.enabled then
    (s, SubmitOutcome.disabled)
  else
    let todaySubmissions := quotaCount artistId now s.entries
    if cfg.maxSubmissionsPerDay ≤ todaySubmissions then
      (s, SubmitOutcome.quotaExceeded cfg.maxSubmissionsPerDay)
    else
      let entry := mkEntry cfg s.nextId ballId artistId title description m.url now
      ({ entries := s.entries ++ [entry], nextId := s.nextId + 1 },
       SubmitOutcome.created entry)

/-- `k` successive submit invocations by the same player with the same
arguments, keeping only the resulting table state. -/
def iterSubmit (cfg : ArtSettings) (ballId artistId : Nat) (m : MediaInput)
    (title description : Option String) (now : Nat) (s : ArtState) : Nat → ArtState
  | 0 => s
  | k + 1 =>
      (artSubmit cfg ballId artistId m title description now
        (iterSubmit cfg ballId artistId m title description now s k)).1

/-- Uppercase hexadecimal digit for a value below 16, as Python's `"{:X}"`
format produces. -/
def hexDigitChar (n : Nat) : Char :=
  if n < 10 then Char.ofNat (48 + n) else Char.ofNat (55 + n)

/-- Uppercase hexadecimal digits of `n`, most significant first: the digits
Python's `f"{pk:X}"` emits. -/
def toHexChars (n : Nat) : List Char :=
  if h : n < 16 then [hexDigitChar n]
  else toHexChars (n / 16) ++ [hexDigitChar (n % 16)]
decreasing_by exact Nat.div_lt_self (by omega) (by omega)

/-- Human-facing entry identifier `f"#{pk:X}"` (cog.py line 141 and the other
embed fields): a `#` followed by uppercase hex. -/
def formatEntryId (n : Nat) : String := String.mk ('#' :: toHexChars n)

/-- Value of one hexadecimal digit as `int(s, 16)` accepts it: `0`-`9`,
`A`-`F` and `a`-`f`. -/
def hexDigitVal (c : Char) : Option Nat :=
  if 48 ≤ c.toNat ∧ c.toNat ≤ 57 then some (c.toNat - 48)
  else if 65 ≤ c.toNat ∧ c.toNat ≤ 70 then some (c.toNat - 55)
  else if 97 ≤ c.toNat ∧ c.toNat ≤ 102 then some (c.toNat - 87)
  else none

/-- Base-16 accumulator loop of `int(s, 16)`; any non-digit character fails
the parse (`ValueError`). -/
def parseHexAux : List Char → Nat → Option Nat
  | [], acc => some acc
  | c :: cs, acc =>
      match hexDigitVal c with
      | none => none
      | some d => parseHexAux cs (16 * acc + d)

/-- Python `str.strip()`: drop whitespace from both ends. -/
def stripChars (cs : List Char) : List Char :=
  ((cs.dropWhile Char.isWhitespace).reverse.dropWhile Char.isWhitespace).reverse

/-- Identifier parsing of the commands (cog.py lines 248-250, 557-558,
620-621): `entry_id.strip().lstrip("#")` then `int(entry_id, 16)`.
`lstrip("#")` removes every leading `#`; `int("", 16)` raises, modelled as
`none`.  The sign, `0x` and underscore forms `int` also tolerates play no
role in the commands and are left out. -/
def parseEntryId (s : String) : Option Nat :=
  let cs := (stripChars s.toList).dropWhile (· == '#')
  if cs.isEmpty then none else parseHexAux cs 0

/-- `ArtEntry.approve` (models.py lines 131-137): set status APPROVED, stamp
reviewer and time, clear the rejection reason; no precondition on the prior
status. -/
def ArtEntry.approve (e : ArtEntry) (reviewer now : Nat) : ArtEntry :=
  { e with
    status := ArtStatus.approved
    reviewedBy := some reviewer
    reviewedAt := some now
    rejectionReason := "" }

/-- `ArtEntry.reject` (models.py lines 139-145): set status REJECTED, stamp
reviewer and time, record the reason. -/
def ArtEntry.reject (e : ArtEntry) (reviewer now : Nat) (reason : String) : ArtEntry :=
  { e with
    status := ArtStatus.rejected
    reviewedBy := some reviewer
    reviewedAt := some now
    rejectionReason := reason }

/-- Primary-key lookup `ArtEntry.objects.aget(pk=entry_pk)`. -/
def findEntry (pk : Nat) (entries : List ArtEntry) : Option ArtEntry :=
  entries.find? fun e => e.id == pk

/-- Persist the single mutated row back into the table. -/
def saveEntry (e : ArtEntry) (entries : List ArtEntry) : List ArtEntry :=
  entries.map fun x => if x.id == e.id then e else x

/-- Result of the `art_info` command. -/
inductive InfoOutcome
  | invalidFormat
  | notFound
  | forbidden
  | shown (entry : ArtEntry)
deriving Repr, DecidableEq

/-- The `art_info` handler (cog.py lines 243-269): parse the hex id, look the
row up, then gate visibility with
`if not is_admin and entry.status != ArtStatus.APPROVED and entry.artist != player`. -/
def artInfo (entryId : String) (requester : Nat) (isAdmin : Bool)
    (s : ArtState) : InfoOutcome :=
  match parseEntryId entryId with
  | none => InfoOutcome.invalidFormat
  | some pk =>
      match findEntry pk s.entries with
      | none => InfoOutcome.notFound
      | some entry =>
          if !isAdmin && !(entry.status == ArtStatus.approved)
              && !(entry.artist == requester) then
            InfoOutcome.forbidden
          else
            InfoOutcome.shown entry

/-- The queryset of `art_view` (cog.py lines 163-171):
`filter(ball=ball, status=APPROVED, enabled=True).order_by("-created_at")[:10]`. -/
def listVisible (ballId : Nat) (entries : List ArtEntry) : List ArtEntry :=
  ((entries.filter fun e =>
      e.ball == ballId && e.status == ArtStatus.approved && e.enabled).mergeSort
    (fun a b => b.createdAt ≤ a.createdAt)).take 10

/-- Result of the review approve/reject commands. -/
inductive ReviewOutcome
  | notStaff
  | invalidFormat
  | notFound
  | alreadyApproved
  | alreadyRejected
  | approvedEntry (entry : ArtEntry)
  | rejectedEntry (entry : ArtEntry)
deriving Repr, DecidableEq

/-- The `review_approve` handler (cog.py lines 549-574): staff gate, id parse,
lookup, the already-approved guard, then `entry.approve(reviewer)`. -/
def reviewApprove (isAdmin : Bool) (entryId : String) (reviewer now : Nat)
    (s : ArtState) : ArtState × ReviewOutcome :=
  if !isAdmin then (s, ReviewOutcome.notStaff)
  else
    match parseEntryId entryId with
    | none => (s, ReviewOutcome.invalidFormat)
    | some pk =>
        match findEntry pk s.entries with
        | none => (s, ReviewOutcome.notFound)
        | some entry =>
            if entry.status == ArtStatus.approved then
              (s, ReviewOutcome.alreadyApproved)
            else
              let e := entry.approve reviewer now
              ({ s with entries := saveEntry e s.entries },
               ReviewOutcome.approvedEntry e)

/-- The `review_reject` handler (cog.py lines 611-637): staff gate, id parse,
lookup, the already-rejected guard, then `entry.reject(reviewer, reason or "")`. -/
def reviewReject (isAdmin : Bool) (entryId : String) (reviewer now : Nat)
    (reason : Option String) (s : ArtState) : ArtState × ReviewOutcome :=
  if !isAdmin then (s, ReviewOutcome.notStaff)
  else
    match parseEntryId entryId with
    | none => (s, ReviewOutcome.invalidFormat)
    | some pk =>
        match findEntry pk s.entries with
        | none => (s, ReviewOutcome.notFound)
        | some entry =>
            if entry.status == ArtStatus.rejected then
              (s, ReviewOutcome.alreadyRejected)
            else
              let e := entry.reject reviewer now (reason.getD "")
              ({ s with entries := saveEntry e s.entries },
               ReviewOutcome.rejectedEntry e)

/-- The mutations a single entry can undergo after creation: the two reviewer
transitions of models.py, and the externally triggered effect of deleting the
reviewing player, whose foreign key is declared `on_delete=SET_NULL`
(models.py lines 92-99): the database nulls `reviewed_by` and touches no other
column. -/
inductive ArtOp
  | approveOp (reviewer now : Nat)
  | rejectOp (reviewer now : Nat) (reason : String)
  | reviewerDeleted
deriving Repr, DecidableEq

/-- Apply one mutation to an entry. -/
def applyOp (e : ArtEntry) : ArtOp → ArtEntry
  | ArtOp.approveOp reviewer now => e.approve reviewer now
  | ArtOp.rejectOp reviewer now reason => e.reject reviewer now reason
  | ArtOp.reviewerDeleted => { e with reviewedBy := none }

/-- The entry state reached after a sequence of mutations. -/
def runOps (e : ArtEntry) (ops : List ArtOp) : ArtEntry :=
  ops.foldl applyOp e

/-- Whether `reviewedBy` and `reviewedAt` are both set or both unset. -/
def reviewConsistent (e : ArtEntry) : Bool :=
  e.reviewedBy.isNone == e.reviewedAt.isNone

/-- Sample settings row with the default values of models.py. -/
def defaultSettings : ArtSettings :=
  { enabled := true, requireApproval := true, maxSubmissionsPerDay := 5 }

/-- A sample entry that has been approved by reviewer 9. -/
def sampleApproved : ArtEntry :=
  (mkEntry defaultSettings 1 7 1 none none "https://cdn.discordapp.com/a.png" 0).approve 9 50

/-- A sample entry that has been rejected by reviewer 9. -/
def sampleRejected : ArtEntry :=
  (mkEntry defaultSettings 2 7 1 none none "https://cdn.discordapp.com/b.png" 10).reject 9 60 "blurry"

/-- A sample entry still pending review. -/
def samplePending : ArtEntry :=
  mkEntry defaultSettings 3 8 1 none none "https://cdn.discordapp.com/c.png" 20

/-- A sample table holding the three entries above. -/
def sampleState : ArtState :=
  { entries := [sampleApproved, sampleRejected, samplePending], nextId := 4 }

end ArtPackage

namespace ArtPackage

theorem quotaCount_nil (player now : Nat) : quotaCount player now [] = 0 := rfl

/-- The quota filter reads only the artist and creation-time columns, so any
rewrite of the rows that preserves those two columns preserves the count. -/
theorem quotaCount_map_congr (player now : Nat) (l : List ArtEntry)
    (g : ArtEntry → ArtEntry)
    (hg : ∀ e, (g e).artist = e.artist ∧ (g e).createdAt = e.createdAt) :
    quotaCount player now (l.map g) = quotaCount player now l := by
  induction l with
  | nil => rfl
  | cons e l ih =>
      simp only [quotaCount, List.map_cons, List.filter_cons] at *
      rw [(hg e).1, (hg e).2]
      split
      · simp [ih]
      · exact ih

/-- C3: `approve(entry, reviewer)` always leaves status = APPROVED,
`reviewer` = reviewer, `reviewedAt` = the current time, and an empty
`rejectionReason`, whatever the prior state of the entry was. -/
theorem approve_sets_review_fields (e : ArtEntry) (reviewer now : Nat) :
    (e.approve reviewer now).status = ArtStatus.approved ∧
    (e.approve reviewer now).reviewedBy = some reviewer ∧
    (e.approve reviewer now).reviewedAt = some now ∧
    (e.approve reviewer now).rejectionReason = "" :=
  ⟨rfl, rfl, rfl, rfl⟩

/-- C2: every entry a successful submit creates carries status PENDING when
`requireApproval` is true and APPROVED when it is false, with `reviewedBy`
and `reviewedAt` unset. -/
theorem submit_initial_status (cfg : ArtSettings) (ballId artistId : Nat)
    (m : MediaInput) (title description : Option String) (now : Nat)
    (s : ArtState) (e : ArtEntry)
    (h : (artSubmit cfg ballId artistId m title description now s).2 =
      SubmitOutcome.created e) :
    e.status = (if cfg.requireApproval then ArtStatus.pending else ArtStatus.approved) ∧
    e.reviewedBy = none ∧ e.reviewedAt = none := by
  unfold artSubmit at h
  dsimp only at h
  split at h
  · simp at h
  · split at h
    · simp at h
    · simp only [SubmitOutcome.created.injEq] at h
      subst h
      exact ⟨rfl, rfl, rfl⟩

theorem submit_initial_status_witness :
    (mkEntry defaultSettings 1 7 1 none none "https://cdn.discordapp.com/a.png" 0).status
        = (if defaultSettings.requireApproval then ArtStatus.pending else ArtStatus.approved) ∧
    (mkEntry defaultSettings 1 7 1 none none "https://cdn.discordapp.com/a.png" 0).reviewedBy = none ∧
    (mkEntry defaultSettings 1 7 1 none none "https://cdn.discordapp.com/a.png" 0).reviewedAt = none :=
  submit_initial_status defaultSettings 7 1
    (MediaInput.attachment ⟨"https://cdn.discordapp.com/a.png"⟩) none none 0
    { entries := [], nextId := 1 } _ rfl

/-- C6: the media argument of every submit invocation is a pre-validated
attachment locator supplied by the front end (the command signature admits
only `discord.Attachment`), so no invocation satisfies the claim's
antecedent; moreover submit only ever reports the disabled switch, the quota,
or a created row that stores the attachment URL verbatim — it has no
InvalidMedia outcome to produce. -/
theorem submit_media_prevalidated (cfg : ArtSettings) (ballId artistId : Nat)
    (m : MediaInput) (title description : Option String) (now : Nat)
    (s : ArtState) :
    m.preValidated = true ∧
    ((artSubmit cfg ballId artistId m title description now s).2 = SubmitOutcome.disabled ∨
     (artSubmit cfg ballId artistId m title description now s).2 =
       SubmitOutcome.quotaExceeded cfg.maxSubmissionsPerDay ∨
     (artSubmit cfg ballId artistId m title description now s).2 =
       SubmitOutcome.created
         (mkEntry cfg s.nextId ballId artistId title description m.url now)) := by
  refine ⟨by cases m with | attachment a => rfl, ?_⟩
  unfold artSubmit
  dsimp only
  split
  · exact Or.inl rfl
  · split
    · exact Or.inr (Or.inl rfl)
    · exact Or.inr (Or.inr rfl)

/-- C10: the daily quota count filters on artist and creation time only, so
it is invariant under any change of statuses — in particular under rejecting
entries — and the verdict of a subsequent submit is unchanged when today's
entries have been rejected rather than left pending or approved. -/
theorem quota_counts_all_statuses (player now reviewer t : Nat)
    (reason : String) (l : List ArtEntry) :
    (∀ f : ArtEntry → ArtStatus,
        quotaCount player now (l.map fun e => { e with status := f e }) =
          quotaCount player now l) ∧
    quotaCount player now (l.map fun e => e.reject reviewer t reason) =
      quotaCount player now l ∧
    ∀ (cfg : ArtSettings) (ballId : Nat) (m : MediaInput)
      (title description : Option String) (k : Nat),
      (artSubmit cfg ballId player m title description now
          { entries := l.map fun e => e.reject reviewer t reason, nextId := k }).2 =
        (artSubmit cfg ballId player m title description now
          { entries := l, nextId := k }).2 := by
  have hrej : quotaCount player now (l.map fun e => e.reject reviewer t reason) =
      quotaCount player now l :=
    quotaCount_map_congr player now l _ (fun e => ⟨rfl, rfl⟩)
  refine ⟨fun f => quotaCount_map_congr player now l _ (fun e => ⟨rfl, rfl⟩), hrej, ?_⟩
  intro cfg ballId m title description k
  unfold artSubmit
  dsimp only
  simp only [hrej]
  split
  · rfl
  · split <;> rfl

/-- C9: once the staff gate and lookup succeed, the approve command returns
the already-approved report without mutating the table when the entry is
already APPROVED, and the reject command returns the already-rejected report
without mutating the table when the entry is already REJECTED. -/
theorem review_already_in_target_state (entryId : String) (reviewer now : Nat)
    (reason : Option String) (s : ArtState) (pk : Nat) (e : ArtEntry)
    (hpk : parseEntryId entryId = some pk)
    (hfind : findEntry pk s.entries = some e) :
    (e.status = ArtStatus.approved →
        reviewApprove true entryId reviewer now s = (s, ReviewOutcome.alreadyApproved)) ∧
    (e.status = ArtStatus.rejected →
        reviewReject true entryId reviewer now reason s = (s, ReviewOutcome.alreadyRejected)) := by
  constructor
  · intro hst
    unfold reviewApprove
    rw [hpk]
    dsimp only
    rw [hfind]
    simp [hst]
  · intro hst
    unfold reviewReject
    rw [hpk]
    dsimp only
    rw [hfind]
    simp [hst]

theorem review_already_in_target_state_witness :
    reviewApprove true "#1" 9 70 sampleState = (sampleState, ReviewOutcome.alreadyApproved) ∧
    reviewReject true "#2" 9 70 none sampleState = (sampleState, ReviewOutcome.alreadyRejected) :=
  ⟨(review_already_in_target_state "#1" 9 70 none sampleState 1 sampleApproved
      (by decide) (by decide)).1 rfl,
   (review_already_in_target_state "#2" 9 70 none sampleState 2 sampleRejected
      (by decide) (by decide)).2 rfl⟩

/-- C4: with a parsed id, `art_info` reports NotFound when no row matches,
shows the entry to staff, to anyone when it is APPROVED, and to its
submitter, and reports Forbidden in every remaining case. -/
theorem artInfo_visibility (entryId : String) (requester : Nat) (isAdmin : Bool)
    (s : ArtState) (pk : Nat) (hpk : parseEntryId entryId = some pk) :
    (findEntry pk s.entries = none →
        artInfo entryId requester isAdmin s = InfoOutcome.notFound) ∧
    ∀ e, findEntry pk s.entries = some e →
      ((isAdmin = true ∨ e.status = ArtStatus.approved ∨ e.artist = requester) →
          artInfo entryId requester isAdmin s = InfoOutcome.shown e) ∧
      (isAdmin = false → e.status ≠ ArtStatus.approved → e.artist ≠ requester →
          artInfo entryId requester isAdmin s = InfoOutcome.forbidden) := by
  constructor
  · intro hfind
    unfold artInfo
    rw [hpk]
    dsimp only
    rw [hfind]
  · intro e hfind
    constructor
    · intro hvis
      unfold artInfo
      rw [hpk]
      dsimp only
      rw [hfind]
      rcases hvis with h | h | h <;> simp [h]
    · intro hAdm hst hart
      unfold artInfo
      rw [hpk]
      dsimp only
      rw [hfind]
      simp [hAdm, hst, hart]

theorem artInfo_visibility_witness :
    artInfo "#3" 2 false sampleState = InfoOutcome.forbidden :=
  (((artInfo_visibility "#3" 2 false sampleState 3 (by decide)).2
      samplePending (by decide)).2) rfl (by decide) (by decide)

/-- C5: the view query returns at most 10 entries, all of the requested ball
with status APPROVED and `enabled` true, ordered most-recently-created
first. -/
theorem listVisible_approved_enabled_sorted (ballId : Nat) (entries : List ArtEntry) :
    ((listVisible ballId entries).all fun e =>
        e.ball == ballId && e.status == ArtStatus.approved && e.enabled) = true ∧
    (listVisible ballId entries).length ≤ 10 ∧
    (listVisible ballId entries).Pairwise fun a b => b.createdAt ≤ a.createdAt := by
  refine ⟨?_, ?_, ?_⟩
  · rw [List.all_eq_true]
    intro e he
    unfold listVisible at he
    have hmem : e ∈ (entries.filter fun e =>
        e.ball == ballId && e.status == ArtStatus.approved && e.enabled) := by
      have := (List.take_sublist 10 _).mem he
      exact List.mem_mergeSort.mp this
    simpa using List.of_mem_filter hmem
  · unfold listVisible
    rw [List.length_take]
    exact min_le_left _ _
  · unfold listVisible
    refine List.Pairwise.sublist (List.take_sublist 10 _) ?_
    refine List.Pairwise.imp ?_ (List.sorted_mergeSort ?_ ?_
      (entries.filter fun e =>
        e.ball == ballId && e.status == ArtStatus.approved && e.enabled))
    · exact fun hab => by simpa using hab
    · intro a b c hab hbc
      simp only [decide_eq_true_eq] at *
      omega
    · intro a b
      simp only [Bool.or_eq_true, decide_eq_true_eq]
      omega

/-- C8 counterexample: an entry created by submit, then approved, then whose
reviewing player is deleted (`on_delete=SET_NULL` nulls only `reviewed_by`)
is a reachable state with `reviewedBy` unset but `reviewedAt` still set, so
the two fields are not always both set or both unset. -/
theorem reviewer_deletion_breaks_pairing :
    reviewConsistent
      (runOps (mkEntry defaultSettings 1 7 1 none none
          "https://cdn.discordapp.com/a.png" 0)
        [ArtOp.approveOp 9 50, ArtOp.reviewerDeleted]) = false ∧
    (runOps (mkEntry defaultSettings 1 7 1 none none
        "https://cdn.discordapp.com/a.png" 0)
      [ArtOp.approveOp 9 50, ArtOp.reviewerDeleted]).reviewedBy = none ∧
    (runOps (mkEntry defaultSettings 1 7 1 none none
        "https://cdn.discordapp.com/a.png" 0)
      [ArtOp.approveOp 9 50, ArtOp.reviewerDeleted]).reviewedAt = some 50 :=
  ⟨rfl, rfl, rfl⟩

theorem runOps_reviewedAt_of_reviewedBy (ops : List ArtOp) :
    ∀ e : ArtEntry, (e.reviewedBy ≠ none → e.reviewedAt ≠ none) →
      ((runOps e ops).reviewedBy ≠ none → (runOps e ops).reviewedAt ≠ none) := by
  induction ops with
  | nil => exact fun e he => he
  | cons op ops ih =>
      intro e he
      refine ih (applyOp e op) ?_
      cases op with
      | approveOp reviewer now => exact fun _ => Option.some_ne_none now
      | rejectOp reviewer now reason => exact fun _ => Option.some_ne_none now
      | reviewerDeleted => exact fun h => absurd rfl h

/-- C8 amended: on every entry state reachable from creation through approve,
reject and reviewer deletion, a set `reviewedBy` implies a set `reviewedAt`;
the converse direction fails once the reviewing player is deleted, because
its foreign key is `SET_NULL` while `reviewed_at` keeps its value. -/
theorem reviewer_implies_reviewedAt (cfg : ArtSettings) (id ball artist : Nat)
    (title description : Option String) (url : String) (now : Nat)
    (ops : List ArtOp)
    (h : (runOps (mkEntry cfg id ball artist title description url now) ops).reviewedBy ≠ none) :
    (runOps (mkEntry cfg id ball artist title description url now) ops).reviewedAt ≠ none :=
  runOps_reviewedAt_of_reviewedBy ops _ (fun hb => absurd rfl hb) h

theorem reviewer_implies_reviewedAt_witness :
    (runOps (mkEntry defaultSettings 1 7 1 none none
        "https://cdn.discordapp.com/a.png" 0) [ArtOp.approveOp 9 50]).reviewedAt ≠ none :=
  reviewer_implies_reviewedAt defaultSettings 1 7 1 none none
    "https://cdn.discordapp.com/a.png" 0 [ArtOp.approveOp 9 50] (by decide)

theorem hexDigitVal_hexDigitChar : ∀ n < 16, hexDigitVal (hexDigitChar n) = some n := by
  decide

theorem hexDigitChar_not_whitespace : ∀ n < 16, (hexDigitChar n).isWhitespace = false := by
  decide

theorem hexDigitChar_ne_hash : ∀ n < 16, (hexDigitChar n == '#') = false := by
  decide

theorem toHexChars_ne_nil (n : Nat) : toHexChars n ≠ [] := by
  rw [toHexChars]
  split <;> simp

theorem mem_toHexChars (n : Nat) : ∀ c ∈ toHexChars n, ∃ k, k < 16 ∧ c = hexDigitChar k := by
  induction n using Nat.strong_induction_on with
  | _ n ih =>
      intro c hc
      rw [toHexChars] at hc
      split at hc
      · next h =>
          simp only [List.mem_singleton] at hc
          exact ⟨n, h, hc⟩
      · next h =>
          rcases List.mem_append.mp hc with hl | hr
          · exact ih (n / 16) (Nat.div_lt_self (by omega) (by omega)) c hl
          · simp only [List.mem_singleton] at hr
            exact ⟨n % 16, Nat.mod_lt _ (by omega), hr⟩

theorem parseHexAux_append (xs ys : List Char) :
    ∀ acc, parseHexAux (xs ++ ys) acc =
      (parseHexAux xs acc).bind fun m => parseHexAux ys m := by
  induction xs with
  | nil => intro acc; rfl
  | cons c cs ih =>
      intro acc
      simp only [List.cons_append, parseHexAux]
      cases hexDigitVal c with
      | none => rfl
      | some d => exact ih _

theorem parseHexAux_toHexChars (n : Nat) :
    ∀ acc, parseHexAux (toHexChars n) acc =
      some (acc * 16 ^ (toHexChars n).length + n) := by
  induction n using Nat.strong_induction_on with
  | _ n ih =>
      intro acc
      rw [toHexChars]
      split
      · next h =>
          simp only [parseHexAux, hexDigitVal_hexDigitChar n h, List.length_singleton]
          norm_num
          omega
      · next h =>
          rw [parseHexAux_append]
          rw [ih (n / 16) (Nat.div_lt_self (by omega) (by omega))]
          rw [Option.some_bind]
          simp only [parseHexAux,
            hexDigitVal_hexDigitChar (n % 16) (Nat.mod_lt _ (by omega)),
            List.length_append, List.length_singleton]
          rw [pow_succ, ← mul_assoc]
          have hdm := Nat.div_add_mod n 16
          set A := acc * 16 ^ (toHexChars (n / 16)).length
          congr 1
          omega

theorem dropWhile_eq_self_of_not {p : Char → Bool} (l : List Char)
    (h : ∀ c ∈ l, p c = false) : l.dropWhile p = l := by
  cases l with
  | nil => rfl
  | cons c cs => rw [List.dropWhile_cons, h c (List.mem_cons_self c cs)]; simp

theorem stripChars_eq_self (cs : List Char)
    (h : ∀ c ∈ cs, c.isWhitespace = false) : stripChars cs = cs := by
  unfold stripChars
  rw [dropWhile_eq_self_of_not cs h,
    dropWhile_eq_self_of_not cs.reverse (fun c hc => h c (List.mem_reverse.mp hc)),
    List.reverse_reverse]

/-- C7: formatting an entry id as `f"#{pk:X}"` and feeding the result back
through `strip`, `lstrip("#")` and `int(_, 16)` recovers the id, for every id
below 2 to the 63rd. -/
theorem entryId_roundtrip (n : Nat) (h : n < 2 ^ 63) :
    parseEntryId (formatEntryId n) = some n := by
  have hmem : ∀ c ∈ '#' :: toHexChars n, c.isWhitespace = false := by
    intro c hc
    rcases List.mem_cons.mp hc with hc | hc
    · subst hc; decide
    · obtain ⟨k, hk, rfl⟩ := mem_toHexChars n c hc
      exact hexDigitChar_not_whitespace k hk
  have hlist : (formatEntryId n).toList = '#' :: toHexChars n := rfl
  unfold parseEntryId
  rw [hlist, stripChars_eq_self _ hmem, List.dropWhile_cons]
  simp only [beq_self_eq_true, if_true]
  rw [dropWhile_eq_self_of_not (toHexChars n) (fun c hc => by
    obtain ⟨k, hk, rfl⟩ := mem_toHexChars n c hc
    exact hexDigitChar_ne_hash k hk)]
  rw [if_neg (by simpa using toHexChars_ne_nil n)]
  rw [parseHexAux_toHexChars n 0]
  simp

theorem entryId_roundtrip_witness :
    parseEntryId (formatEntryId 2748) = some 2748 :=
  entryId_roundtrip 2748 (by norm_num)

theorem artSubmit_quota_fail (cfg : ArtSettings) (ballId artistId : Nat)
    (m : MediaInput) (title description : Option String) (now : Nat)
    (s : ArtState) (hEnabled : cfg.enabled = true)
    (hq : cfg.maxSubmissionsPerDay ≤ quotaCount artistId now s.entries) :
    artSubmit cfg ballId artistId m title description now s =
      (s, SubmitOutcome.quotaExceeded cfg.maxSubmissionsPerDay) := by
  unfold artSubmit
  dsimp only
  simp [hEnabled, hq]

theorem artSubmit_success (cfg : ArtSettings) (ballId artistId : Nat)
    (m : MediaInput) (title description : Option String) (now : Nat)
    (s : ArtState) (hEnabled : cfg.enabled = true)
    (hq : quotaCount artistId now s.entries < cfg.maxSubmissionsPerDay) :
    artSubmit cfg ballId artistId m title description now s =
      ({ entries := s.entries ++
            [mkEntry cfg s.nextId ballId artistId title description m.url now],
          nextId := s.nextId + 1 },
       SubmitOutcome.created
         (mkEntry cfg s.nextId ballId artistId title description m.url now)) := by
  unfold artSubmit
  dsimp only
  simp [hEnabled, Nat.not_le.mpr hq]

theorem quotaCount_append_created (cfg : ArtSettings) (player now id ball : Nat)
    (title description : Option String) (url : String) (l : List ArtEntry) :
    quotaCount player now (l ++ [mkEntry cfg id ball player title description url now]) =
      quotaCount player now l + 1 := by
  unfold quotaCount
  rw [List.filter_append, List.length_append]
  congr 1
  simp [mkEntry, todayStart, Nat.div_mul_le_self]

theorem quotaCount_iterSubmit (cfg : ArtSettings) (ballId artistId : Nat)
    (m : MediaInput) (title description : Option String) (now : Nat)
    (hEnabled : cfg.enabled = true) :
    ∀ k, k ≤ cfg.maxSubmissionsPerDay →
      ∀ s : ArtState, quotaCount artistId now s.entries = 0 →
        quotaCount artistId now
          (iterSubmit cfg ballId artistId m title description now s k).entries = k := by
  intro k
  induction k with
  | zero => intro _ s h0; exact h0
  | succ k ih =>
      intro hk s h0
      have hcount := ih (by omega) s h0
      rw [iterSubmit]
      rw [artSubmit_success cfg ballId artistId m title description now _ hEnabled
        (by omega)]
      dsimp only
      rw [quotaCount_append_created, hcount]

/-- C1: with submissions enabled and cap N, any submit invocation by a player
who already has at least N entries created since local midnight returns
QuotaExceeded carrying N and leaves the table unchanged; and starting from a
day with no submissions, N consecutive submissions all create entries while
the invocation after them is the first to fail, with QuotaExceeded N. -/
theorem dailyQuota_enforced (cfg : ArtSettings) (ballId artistId : Nat)
    (m : MediaInput) (title description : Option String) (now : Nat)
    (hEnabled : cfg.enabled = true) :
    (∀ s : ArtState, cfg.maxSubmissionsPerDay ≤ quotaCount artistId now s.entries →
        artSubmit cfg ballId artistId m title description now s =
          (s, SubmitOutcome.quotaExceeded cfg.maxSubmissionsPerDay)) ∧
    ∀ s : ArtState, quotaCount artistId now s.entries = 0 →
      (∀ k < cfg.maxSubmissionsPerDay, ∃ e,
          (artSubmit cfg ballId artistId m title description now
              (iterSubmit cfg ballId artistId m title description now s k)).2 =
            SubmitOutcome.created e) ∧
      (artSubmit cfg ballId artistId m title description now
          (iterSubmit cfg ballId artistId m title description now s
            cfg.maxSubmissionsPerDay)).2 =
        SubmitOutcome.quotaExceeded cfg.maxSubmissionsPerDay := by
  constructor
  · intro s hq
    exact artSubmit_quota_fail cfg ballId artistId m title description now s hEnabled hq
  · intro s h0
    constructor
    · intro k hk
      have hcount := quotaCount_iterSubmit cfg ballId artistId m title description now
        hEnabled k (by omega) s h0
      have hsucc := artSubmit_success cfg ballId artistId m title description now
        (iterSubmit cfg ballId artistId m title description now s k) hEnabled (by omega)
      refine ⟨mkEntry cfg
        (iterSubmit cfg ballId artistId m title description now s k).nextId
        ballId artistId title description m.url now, ?_⟩
      rw [hsucc]
    · have hcount := quotaCount_iterSubmit cfg ballId artistId m title description now
        hEnabled cfg.maxSubmissionsPerDay (le_refl _) s h0
      rw [artSubmit_quota_fail cfg ballId artistId m title description now _ hEnabled
        (by omega)]

theorem dailyQuota_enforced_witness :
    artSubmit { enabled := true, requireApproval := true, maxSubmissionsPerDay := 2 }
        7 1 (MediaInput.attachment ⟨"https://cdn.discordapp.com/a.png"⟩) none none 25
        sampleState =
      (sampleState, SubmitOutcome.quotaExceeded 2) ∧
    (artSubmit { enabled := true, requireApproval := true, maxSubmissionsPerDay := 2 }
        7 1 (MediaInput.attachment ⟨"https://cdn.discordapp.com/a.png"⟩) none none 25
        (iterSubmit { enabled := true, requireApproval := true, maxSubmissionsPerDay := 2 }
          7 1 (MediaInput.attachment ⟨"https://cdn.discordapp.com/a.png"⟩) none none 25
          { entries := [], nextId := 1 } 2)).2 =
      SubmitOutcome.quotaExceeded 2 :=
  ⟨(dailyQuota_enforced _ 7 1 _ none none 25 rfl).1 sampleState (by decide),
   ((dailyQuota_enforced _ 7 1 _ none none 25 rfl).2 { entries := [], nextId := 1 } rfl).2⟩

end ArtPackage
